import Mathlib

/-!
Shallow embedding of the stock-analysis-tool frontend (React/TypeScript).
Each definition mirrors one function or state update of the source;
theorems settle the frozen claims about the spec.
-/

namespace StockTool

/-- Model of a JavaScript number: a finite rational, an infinity, or NaN.
Floating-point rounding is abstracted away (finite values are exact
rationals); the special values and their propagation follow JS semantics. -/
inductive JSNum where
  | num : Rat → JSNum
  | inf : JSNum
  | ninf : JSNum
  | nan : JSNum
deriving DecidableEq, Repr

/-- JS subtraction `a - b` on the number model. -/
def JSNum.sub : JSNum → JSNum → JSNum
  | .num a, .num b => .num (a - b)
  | .num _, .inf => .ninf
  | .num _, .ninf => .inf
  | .inf, .num _ => .inf
  | .inf, .inf => .nan
  | .inf, .ninf => .inf
  | .ninf, .num _ => .ninf
  | .ninf, .inf => .ninf
  | .ninf, .ninf => .nan
  | .nan, _ => .nan
  | _, .nan => .nan

/-- JS multiplication `a * b` on the number model. -/
def JSNum.mul : JSNum → JSNum → JSNum
  | .num a, .num b => .num (a * b)
  | .num a, .inf => if 0 < a then .inf else if a < 0 then .ninf else .nan
  | .num a, .ninf => if 0 < a then .ninf else if a < 0 then .inf else .nan
  | .inf, .num b => if 0 < b then .inf else if b < 0 then .ninf else .nan
  | .ninf, .num b => if 0 < b then .ninf else if b < 0 then .inf else .nan
  | .inf, .inf => .inf
  | .inf, .ninf => .ninf
  | .ninf, .inf => .ninf
  | .ninf, .ninf => .inf
  | .nan, _ => .nan
  | _, .nan => .nan

/-- JS division `a / b` on the number model (division by zero yields a
signed infinity or NaN, as in JS; the sign of zero is not modelled). -/
def JSNum.div : JSNum → JSNum → JSNum
  | .num a, .num b =>
      if b = 0 then (if 0 < a then .inf else if a < 0 then .ninf else .nan)
      else .num (a / b)
  | .num _, .inf => .num 0
  | .num _, .ninf => .num 0
  | .inf, .num b => if b < 0 then .ninf else .inf
  | .ninf, .num b => if b < 0 then .inf else .ninf
  | .inf, .inf => .nan
  | .inf, .ninf => .nan
  | .ninf, .inf => .nan
  | .ninf, .ninf => .nan
  | .nan, _ => .nan
  | _, .nan => .nan

/-- JS falsiness of a number: `0`, `-0` and `NaN` are falsy. -/
def JSNum.isFalsy : JSNum → Bool
  | .num a => a = 0
  | .nan => true
  | _ => false

/-- Whether the number is a finite value. -/
def JSNum.isFinite : JSNum → Bool
  | .num _ => true
  | _ => false

namespace CurrencyContext

/-- The `Currency` type of `CurrencyContext`: one of two fixed symbols. -/
inductive Currency where
  | USD : Currency
  | EUR : Currency
deriving DecidableEq, Repr

/-- The ambient state of the currency provider: the active currency and the
stored scalar exchange rate (1 USD = `exchangeRate` EUR). -/
structure CurrencyState where
  currency : Currency
  exchangeRate : Rat

/-- Embeds `convert(amount, from = "USD")` from the currency context:
falsy amounts map to 0; when the active currency equals the source the
amount is returned unchanged; USD to EUR multiplies by the rate and EUR to
USD divides by it. -/
def convert (st : CurrencyState) (amount : JSNum) (fromCurrency : Currency) : JSNum :=
  if amount.isFalsy then .num 0
  else if st.currency = fromCurrency then amount
  else if fromCurrency = .USD ∧ st.currency = .EUR then amount.mul (.num st.exchangeRate)
  else if fromCurrency = .EUR ∧ st.currency = .USD then amount.div (.num st.exchangeRate)
  else amount

end CurrencyContext

/-- Displayed period statistics: absolute change and percentage change. -/
structure Stats where
  change : JSNum
  changePct : JSNum
deriving DecidableEq, Repr

namespace PriceChart

/-- The stats update inside `fetchHistory` of `PriceChart`: when the fetched
array has more than one element, `change = last.price - first.price` and
`changePct = (change / first) * 100`; otherwise the previous stats stay. -/
def fetchHistoryStats (histData : List JSNum) (prevStats : Stats) : Stats :=
  if 1 < histData.length then
    let first := histData.headD .nan
    let last := histData.getLastD .nan
    let change := last.sub first
    { change := change, changePct := (change.div first).mul (.num 100) }
  else prevStats

/-- Local state of the `PriceChart` component relevant to the claim. -/
structure State where
  ticker : String
  period : String
  data : List JSNum
  stats : Stats
deriving DecidableEq, Repr

/-- One render cycle of `PriceChart` under new props/state: the effect has
dependency list `[ticker, period]`, so `fetchHistory` re-runs exactly when
one of them changed, replacing the series and recomputing the stats from
the freshly fetched `response`. -/
def update (st : State) (ticker period : String) (response : List JSNum) : State :=
  if st.ticker = ticker ∧ st.period = period then st
  else
    { ticker := ticker, period := period, data := response,
      stats := fetchHistoryStats response st.stats }

end PriceChart

namespace PortfolioPerformance

/-- Local state of the `PortfolioPerformance` component relevant to the claim. -/
structure State where
  portfolioId : String
  period : String
  refreshKey : Nat
  data : List JSNum
  stats : Stats
deriving DecidableEq, Repr

/-- One render cycle of `PortfolioPerformance`: the effect has dependency
list `[portfolioId, period, refreshKey]` and runs `fetchHistory` only when
`portfolioId` is truthy (non-empty); the stats update is the same
`last - first` / percentage formula as in `PriceChart`. -/
def update (st : State) (portfolioId period : String) (refreshKey : Nat)
    (response : List JSNum) : State :=
  if st.portfolioId = portfolioId ∧ st.period = period ∧ st.refreshKey = refreshKey then st
  else if portfolioId = "" then
    { st with portfolioId := portfolioId, period := period, refreshKey := refreshKey }
  else
    { portfolioId := portfolioId, period := period, refreshKey := refreshKey,
      data := response,
      stats := PriceChart.fetchHistoryStats response st.stats }

end PortfolioPerformance

namespace DiscoveryPanel

/-- An ETF entry of the discovery panel as used by the selection logic. -/
structure Etf where
  ticker : String
  name : String
  ter : Rat
  change : Rat
  category : String
deriving DecidableEq, Repr

/-- The ETF explorer card onClick handler: an already-selected ETF is
deselected (filtered out by ticker); otherwise it is appended only when
fewer than 3 ETFs are selected; a click on a fresh card with 3 selected
does nothing. -/
def explorerCardClick (selectedEtfs : List Etf) (etf : Etf) : List Etf :=
  if selectedEtfs.any (fun s => s.ticker = etf.ticker) then
    selectedEtfs.filter (fun s => s.ticker ≠ etf.ticker)
  else if selectedEtfs.length < 3 then selectedEtfs ++ [etf]
  else selectedEtfs

/-- The selection update of `addSearchedEtf`: both the success path and the
fetch-failure fallback append the new ETF only under the guard
`selectedEtfs.length < 3`. -/
def addSearchedEtf (selectedEtfs : List Etf) (newEtf : Etf) : List Etf :=
  if selectedEtfs.length < 3 then selectedEtfs ++ [newEtf] else selectedEtfs

/-- The compare button's `disabled` expression:
`selectedEtfs.length < 2 && !isComparing`. -/
def compareDisabled (selectedEtfs : List Etf) (isComparing : Bool) : Bool :=
  decide (selectedEtfs.length < 2) && !isComparing

/-- The `handleSearch` of the discovery panel ETF search box: a raw query
shorter than 2 characters clears the results and returns before any fetch;
otherwise one GET request with the raw query is issued. -/
def handleSearch (query : String) : Option String :=
  if query.length < 2 then none else some query

end DiscoveryPanel

namespace JS

/-- JavaScript `String.prototype.trim`: strips leading and trailing
whitespace (modelled over the character list so it evaluates in the
kernel). -/
def trim (s : String) : String :=
  ⟨((s.data.dropWhile Char.isWhitespace).reverse.dropWhile Char.isWhitespace).reverse⟩

end JS

namespace SearchBar

/-- A request issued by the SearchBar suggestion effect: either the
query-parameterised suggestions GET or the parameterless default
suggestions GET. -/
inductive SuggestionRequest where
  | queryRequest : String → SuggestionRequest
  | defaultRequest : SuggestionRequest
deriving DecidableEq, Repr

/-- The SearchBar effect on `query`: a trimmed query longer than 1
character schedules one debounced query-suggestion request; a trimmed
query of length 0 fetches the default suggestions; a trimmed query of
length 1 issues nothing. -/
def queryEffect (query : String) : Option SuggestionRequest :=
  let trimmedQuery := JS.trim query
  if 1 < trimmedQuery.length then some (.queryRequest trimmedQuery)
  else if trimmedQuery.length = 0 then some .defaultRequest
  else none

end SearchBar

namespace JS

/-- Numeric value of a run of decimal digits. -/
def digitsToNat (ds : List Char) : Nat :=
  ds.foldl (fun acc c => acc * 10 + (c.toNat - 48)) 0

/-- JavaScript `parseFloat` over a character list: skip leading whitespace,
read an optional sign, recognise an `Infinity` literal, then the longest
decimal-literal prefix `digits [. digits] [e|E [sign] digits]`; NaN when no
digit is found. Finite values are exact rationals. -/
def parseFloatChars (cs0 : List Char) : JSNum :=
  let cs1 := cs0.dropWhile Char.isWhitespace
  let sign : Rat :=
    match cs1 with
    | '-' :: _ => -1
    | _ => 1
  let cs2 : List Char :=
    match cs1 with
    | '-' :: rest => rest
    | '+' :: rest => rest
    | _ => cs1
  if cs2.take 8 = "Infinity".data then (if sign = 1 then .inf else .ninf)
  else
    let intDigits := cs2.takeWhile Char.isDigit
    let cs3 := cs2.dropWhile Char.isDigit
    let fracDigits : List Char :=
      match cs3 with
      | '.' :: rest => rest.takeWhile Char.isDigit
      | _ => []
    let cs4 : List Char :=
      match cs3 with
      | '.' :: rest => rest.dropWhile Char.isDigit
      | _ => cs3
    if intDigits.isEmpty && fracDigits.isEmpty then .nan
    else
      let mantissa : Rat :=
        (digitsToNat intDigits : Rat) +
          (digitsToNat fracDigits : Rat) / (10 : Rat) ^ fracDigits.length
      let exp : Int :=
        match cs4 with
        | c :: rest =>
            if c = 'e' ∨ c = 'E' then
              let esign : Int :=
                match rest with
                | '-' :: _ => -1
                | _ => 1
              let rest2 : List Char :=
                match rest with
                | '-' :: r => r
                | '+' :: r => r
                | _ => rest
              let eds := rest2.takeWhile Char.isDigit
              if eds.isEmpty then 0 else esign * (digitsToNat eds : Int)
            else 0
        | [] => 0
      .num (sign * mantissa * (10 : Rat) ^ exp)

/-- JavaScript `parseFloat` on a string. -/
def parseFloat (s : String) : JSNum :=
  parseFloatChars s.data

/-- JavaScript `String.prototype.toUpperCase` (ASCII letters). -/
def toUpperCase (s : String) : String :=
  ⟨s.data.map Char.toUpper⟩

end JS

namespace usePortfolios

/-- A holding as the hook sends and receives it. -/
structure Holding where
  ticker : String
  shares : JSNum
  buyPrice : Option JSNum
deriving DecidableEq, Repr

/-- A portfolio as held in the hook state. -/
structure Portfolio where
  id : String
  name : String
  holdings : List Holding
  createdAt : String
deriving DecidableEq, Repr

/-- A backend request issued by the portfolio hook: POST `/api/portfolios`,
DELETE `/api/portfolios/{id}`, POST `/api/portfolios/{id}/holdings`,
DELETE `/api/portfolios/{id}/holdings/{ticker}`, or the full-list GET
`/api/portfolios` performed by `fetchPortfolios`. -/
inductive ApiRequest where
  | createReq : String → ApiRequest
  | deleteReq : String → ApiRequest
  | addHoldingReq : String → String → ApiRequest
  | removeHoldingReq : String → String → ApiRequest
  | listReq : ApiRequest
deriving DecidableEq, Repr

/-- `createPortfolio`: one POST; the response portfolio is appended to the
local list (`setPortfolios(prev => [...prev, newPortfolio])`); the list is
not re-fetched. -/
def createPortfolio (portfolios : List Portfolio) (name : String)
    (newPortfolio : Portfolio) : List ApiRequest × List Portfolio :=
  ([.createReq name], portfolios ++ [newPortfolio])

/-- `deletePortfolio`: one DELETE; the portfolio is filtered out of the
local list; the list is not re-fetched. -/
def deletePortfolio (portfolios : List Portfolio) (id : String) :
    List ApiRequest × List Portfolio :=
  ([.deleteReq id], portfolios.filter (fun p => p.id ≠ id))

/-- `addHolding`: POST the holding, then `await fetchPortfolios()` — the
local list is replaced by the re-fetched `serverList`. -/
def addHolding (portfolios : List Portfolio) (portfolioId : String)
    (holding : Holding) (serverList : List Portfolio) :
    List ApiRequest × List Portfolio :=
  ([.addHoldingReq portfolioId holding.ticker, .listReq], serverList)

/-- `removeHolding`: DELETE the holding, then `await fetchPortfolios()` —
the local list is replaced by the re-fetched `serverList`. -/
def removeHolding (portfolios : List Portfolio) (portfolioId ticker : String)
    (serverList : List Portfolio) : List ApiRequest × List Portfolio :=
  ([.removeHoldingReq portfolioId ticker, .listReq], serverList)

end usePortfolios

namespace AddHoldingModal

/-- The record passed to the `onAdd` callback. -/
structure AddCall where
  portfolioId : String
  ticker : String
  shares : JSNum
  buyPrice : Option JSNum
deriving DecidableEq, Repr

/-- `handleAdd` of the AddHoldingModal (PriceChart.tsx): the guard is JS
truthiness of `ticker`, `shares` and `selectedPortfolioId` (only the empty
string is falsy); `shares` goes through `parseFloat` unchecked, and a buy
price entered while the active currency is EUR is divided by the exchange
rate on the way back to USD. -/
def handleAdd (ticker shares buyPrice selectedPortfolioId : String)
    (currency : CurrencyContext.Currency) (exchangeRate : Rat) : Option AddCall :=
  if ticker = "" ∨ shares = "" ∨ selectedPortfolioId = "" then none
  else
    let priceInUSD : Option JSNum :=
      if buyPrice = "" then none else some (JS.parseFloat buyPrice)
    let priceInUSD : Option JSNum :=
      match priceInUSD with
      | some p => if currency = .EUR then some (p.div (.num exchangeRate)) else some p
      | none => none
    some { portfolioId := selectedPortfolioId, ticker := JS.toUpperCase ticker,
           shares := JS.parseFloat shares, buyPrice := priceInUSD }

end AddHoldingModal

namespace PortfolioView

/-- `handleAddHolding` of the portfolio view: the guard is JS truthiness of
`selectedPortfolio`, `newHolding.ticker` and `newHolding.shares`; the
shares string goes through `parseFloat` unchecked. -/
def handleAddHolding (selectedPortfolio : Option String)
    (ticker shares buyPrice : String) : Option AddHoldingModal.AddCall :=
  match selectedPortfolio with
  | some pid =>
      if pid = "" ∨ ticker = "" ∨ shares = "" then none
      else
        some { portfolioId := pid, ticker := JS.toUpperCase ticker,
               shares := JS.parseFloat shares,
               buyPrice := if buyPrice = "" then none else some (JS.parseFloat buyPrice) }
  | none => none

end PortfolioView

/-- Every browser-storage key the program writes: `activeTab` and
`lastAnalysis` in `AppContent`, `preferred_currency` in `CurrencyProvider`;
no other component touches browser storage. -/
def writtenStorageKeys : List String :=
  ["activeTab", "lastAnalysis", "preferred_currency"]

/-- `localStorage.setItem`: a wholesale overwrite of a single key, leaving
every other key untouched. -/
def setItem (store : String → Option String) (key value : String) :
    String → Option String :=
  fun k => if k = key then some value else store k

namespace AppContent

/-- A non-ok HTTP response to the analyze request after body
interpretation: `body = none` models a body that fails to parse as JSON;
`body = some d` a parsed JSON object whose `detail` field is `d`
(`none` when absent). -/
structure AnalyzeErrorResponse where
  status : Nat
  statusText : String
  body : Option (Option String)
deriving DecidableEq, Repr

/-- A read of the response body attempted by the error path. -/
inductive BodyRead where
  | jsonParse : BodyRead
  | textReadRejected : BodyRead
deriving DecidableEq, Repr

/-- The body reads `handleSearch` attempts on a non-ok response: one
`response.json()`; only when that throws, one `response.text()` — which
rejects, because `json()` already consumed the body stream even though
parsing failed. -/
def errorBodyReads (resp : AnalyzeErrorResponse) : List BodyRead :=
  match resp.body with
  | some _ => [.jsonParse]
  | none => [.jsonParse, .textReadRejected]

/-- What reaches the outer catch of `handleSearch` and is displayed for a
non-ok response: either the message of the `new Error(errorMsg)` the
handler throws itself, or the engine-specific TypeError of a rejected
body read. -/
inductive ShownError where
  | thrown : String → ShownError
  | bodyReadError : ShownError
deriving DecidableEq, Repr

/-- The displayed error for a non-ok response under Fetch body-consumption
semantics: when the body parses as JSON the handler throws
`new Error(errData.detail || "Failed to fetch analysis")`; when the parse
fails, the `await response.text()` inside the catch rejects (the body was
already read by `json()`) and that TypeError escapes the inner catch
before `errorMsg` is reassigned — so the
`Server Error: {status} {statusText}` assignment is unreachable and the
outer catch displays the TypeError message instead. -/
def analyzeErrorOutcome (resp : AnalyzeErrorResponse) : ShownError :=
  match resp.body with
  | some (some d) => .thrown (if d = "" then "Failed to fetch analysis" else d)
  | some none => .thrown "Failed to fetch analysis"
  | none => .bodyReadError

end AppContent

namespace PriceChart

/-- The single history GET issued by one run of the `fetchHistory` effect. -/
def historyRequest (ticker periodId interval : String) : String :=
  "/api/history/" ++ ticker ++ "?period=" ++ periodId ++ "&interval=" ++ interval

/-- Requests issued by one render cycle: the effect (deps
`[ticker, period]`) runs iff one of them changed, and its body contains
exactly one fetch call. -/
def updateRequests (st : State) (ticker periodId interval : String) : List String :=
  if st.ticker = ticker ∧ st.period = periodId then []
  else [historyRequest ticker periodId interval]

/-- The resolution of an in-flight history fetch: the response of the
fetch issued by effect run `gen` arriving with series `payload`. -/
structure Resolution where
  gen : Nat
  payload : List JSNum
deriving DecidableEq, Repr

/-- Applying one resolved response: the code runs `setData`/`setStats`
unconditionally — there is no generation counter, cancellation or
staleness check. -/
def applyResolution (st : State) (r : Resolution) : State :=
  { st with data := r.payload, stats := fetchHistoryStats r.payload st.stats }

/-- All in-flight resolutions applied in arrival order. -/
def runResolutions (st : State) (rs : List Resolution) : State :=
  rs.foldl applyResolution st

end PriceChart

namespace MarketSentiment

/-- A hot stock of a sector card popover. -/
structure HotStock where
  ticker : String
  name : String
  price : Rat
  change_1w : Rat
deriving DecidableEq, Repr

/-- A sector entry of the fetched sentiment heatmap. -/
structure HeatmapItem where
  sector : String
  sentiment_score : Rat
  status : String
  strength : Rat
  hot_stocks : List HotStock
deriving DecidableEq, Repr

/-- The sector ordering of the render:
`heatmap.sort((a, b) => b.strength - a.strength)` — a comparator sort by
descending strength (modelled by a stable insertion sort, as JS sort is
stable). -/
def sortSectors (heatmap : List HeatmapItem) : List HeatmapItem :=
  List.insertionSort (fun a b => b.strength ≤ a.strength) heatmap

/-- The popover list
`[...(item.hot_stocks || [])].sort((a, b) => b.change_1w - a.change_1w)`:
a copy of the hot stocks sorted by descending weekly change; the spread
copies the array, so the fetched entry itself is untouched. -/
def sortedStocks (item : HeatmapItem) : List HotStock :=
  List.insertionSort (fun a b => b.change_1w ≤ a.change_1w) item.hot_stocks

/-- The rendered card list: sectors in descending-strength order, each
paired with the sorted copy of its hot stocks. -/
def renderCards (heatmap : List HeatmapItem) : List (HeatmapItem × List HotStock) :=
  (sortSectors heatmap).map (fun item => (item, sortedStocks item))

end MarketSentiment

end StockTool

open StockTool
open StockTool.CurrencyContext
open StockTool.DiscoveryPanel (Etf)

/-- C3: the ETF selection list never exceeds 3 entries: both the explorer
card click and `addSearchedEtf` preserve `length ≤ 3`; with 3 ETFs already
selected, clicking a fresh card or adding a searched ETF leaves the
selection unchanged; and with at least 2 selected the compare button is
enabled. -/
theorem C3_at_most_three_selected
    (sel : List Etf) (etf : Etf) (hsel : sel.length ≤ 3)
    (sel3 : List Etf) (etf4 : Etf) (h3 : sel3.length = 3)
    (hfresh : sel3.any (fun s => s.ticker = etf4.ticker) = false)
    (sel2 : List Etf) (h2 : 2 ≤ sel2.length) :
    ((DiscoveryPanel.explorerCardClick sel etf).length ≤ 3 ∧
     (DiscoveryPanel.addSearchedEtf sel etf).length ≤ 3) ∧
    (DiscoveryPanel.explorerCardClick sel3 etf4 = sel3 ∧
     DiscoveryPanel.addSearchedEtf sel3 etf4 = sel3) ∧
    DiscoveryPanel.compareDisabled sel2 false = false := by
  refine ⟨⟨?_, ?_⟩, ⟨?_, ?_⟩, ?_⟩
  · unfold DiscoveryPanel.explorerCardClick
    split_ifs with hmem hlt
    · exact le_trans (List.length_filter_le _ _) hsel
    · rw [List.length_append]
      simp only [List.length_cons, List.length_nil]
      omega
    · exact hsel
  · unfold DiscoveryPanel.addSearchedEtf
    split_ifs with hlt
    · rw [List.length_append]
      simp only [List.length_cons, List.length_nil]
      omega
    · exact hsel
  · unfold DiscoveryPanel.explorerCardClick
    rw [hfresh]
    simp [h3]
  · unfold DiscoveryPanel.addSearchedEtf
    simp [h3]
  · unfold DiscoveryPanel.compareDisabled
    simp [Nat.not_lt.mpr h2]

/-- Witness for C3 on concrete selections of two, three and two ETFs. -/
theorem C3_at_most_three_selected_witness :
    ([⟨"A", "A", 0, 0, "c"⟩, ⟨"B", "B", 0, 0, "c"⟩] : List Etf).length ≤ 3 ∧
    ([⟨"A", "A", 0, 0, "c"⟩, ⟨"B", "B", 0, 0, "c"⟩, ⟨"C", "C", 0, 0, "c"⟩] : List Etf).length = 3 ∧
    ([⟨"A", "A", 0, 0, "c"⟩, ⟨"B", "B", 0, 0, "c"⟩, ⟨"C", "C", 0, 0, "c"⟩] : List Etf).any
      (fun s => s.ticker = (⟨"D", "D", 0, 0, "c"⟩ : Etf).ticker) = false ∧
    2 ≤ ([⟨"A", "A", 0, 0, "c"⟩, ⟨"B", "B", 0, 0, "c"⟩] : List Etf).length ∧
    (((DiscoveryPanel.explorerCardClick [⟨"A", "A", 0, 0, "c"⟩, ⟨"B", "B", 0, 0, "c"⟩]
        ⟨"C", "C", 0, 0, "c"⟩).length ≤ 3 ∧
      (DiscoveryPanel.addSearchedEtf [⟨"A", "A", 0, 0, "c"⟩, ⟨"B", "B", 0, 0, "c"⟩]
        ⟨"C", "C", 0, 0, "c"⟩).length ≤ 3) ∧
     (DiscoveryPanel.explorerCardClick
        [⟨"A", "A", 0, 0, "c"⟩, ⟨"B", "B", 0, 0, "c"⟩, ⟨"C", "C", 0, 0, "c"⟩] ⟨"D", "D", 0, 0, "c"⟩ =
        [⟨"A", "A", 0, 0, "c"⟩, ⟨"B", "B", 0, 0, "c"⟩, ⟨"C", "C", 0, 0, "c"⟩] ∧
      DiscoveryPanel.addSearchedEtf
        [⟨"A", "A", 0, 0, "c"⟩, ⟨"B", "B", 0, 0, "c"⟩, ⟨"C", "C", 0, 0, "c"⟩] ⟨"D", "D", 0, 0, "c"⟩ =
        [⟨"A", "A", 0, 0, "c"⟩, ⟨"B", "B", 0, 0, "c"⟩, ⟨"C", "C", 0, 0, "c"⟩]) ∧
     DiscoveryPanel.compareDisabled [⟨"A", "A", 0, 0, "c"⟩, ⟨"B", "B", 0, 0, "c"⟩] false = false) :=
  ⟨by decide, by decide, by decide, by decide,
   C3_at_most_three_selected
     [⟨"A", "A", 0, 0, "c"⟩, ⟨"B", "B", 0, 0, "c"⟩] ⟨"C", "C", 0, 0, "c"⟩ (by decide)
     [⟨"A", "A", 0, 0, "c"⟩, ⟨"B", "B", 0, 0, "c"⟩, ⟨"C", "C", 0, 0, "c"⟩] ⟨"D", "D", 0, 0, "c"⟩
     (by decide) (by decide)
     [⟨"A", "A", 0, 0, "c"⟩, ⟨"B", "B", 0, 0, "c"⟩] (by decide)⟩

/-- C4 counterexample: the input `"a "` has trimmed length 1 (< 2), yet the
DiscoveryPanel search handler issues a request for it (its raw length is
2); moreover the empty input (trimmed length 0) makes the SearchBar effect
issue the parameterless default-suggestions request. The claim as stated
is therefore false. -/
theorem C4_counterexample :
    (JS.trim "a ").length < 2 ∧
    DiscoveryPanel.handleSearch "a " = some "a " ∧
    (JS.trim "").length < 2 ∧
    SearchBar.queryEffect "" = some .defaultRequest :=
  ⟨by decide, by decide, by decide, by decide⟩

/-- C4 amended: the SearchBar effect never issues a query-parameterised
suggestion request for an input of trimmed length < 2 (though at trimmed
length 0 it issues the parameterless default-suggestions request), and the
DiscoveryPanel handler issues no search request when the raw input length
is shorter than 2 (the guard uses the untrimmed length). -/
theorem C4_short_query_no_request (q1 q2 t : String)
    (h1 : (JS.trim q1).length < 2) (h2 : q2.length < 2) :
    SearchBar.queryEffect q1 ≠ some (.queryRequest t) ∧
    DiscoveryPanel.handleSearch q2 = none := by
  constructor
  · unfold SearchBar.queryEffect
    have hn : ¬ (1 < (JS.trim q1).length) := by omega
    simp only [hn, if_false]
    split_ifs <;> simp
  · unfold DiscoveryPanel.handleSearch
    simp [h2]

/-- Witness for C4 amended at inputs `"a "` and `"a"`. -/
theorem C4_short_query_no_request_witness :
    (JS.trim "a ").length < 2 ∧ ("a" : String).length < 2 ∧
    (SearchBar.queryEffect "a " ≠ some (.queryRequest "x") ∧
     DiscoveryPanel.handleSearch "a" = none) :=
  ⟨by decide, by decide, C4_short_query_no_request "a " "a" "x" (by decide) (by decide)⟩

/-- C2: converting a monetary amount with the stored exchange rate from USD
to EUR (active currency EUR) and then from EUR back to USD (active currency
USD) returns the original amount exactly, given a positive rate; and when
the active currency equals the source currency, `convert` is the identity
on numeric amounts. -/
theorem C2_convert_roundtrip_and_identity (rate a : Rat) (hrate : 0 < rate) :
    convert ⟨.USD, rate⟩ (convert ⟨.EUR, rate⟩ (.num a) .USD) .EUR = .num a ∧
    (∀ (c : Currency) (b : Rat), convert ⟨c, rate⟩ (.num b) c = .num b) := by
  constructor
  · have hr0 : rate ≠ 0 := ne_of_gt hrate
    by_cases ha : a = 0
    · subst ha
      simp [convert, JSNum.isFalsy]
    · have hmul : a * rate ≠ 0 := mul_ne_zero ha hr0
      simp [convert, JSNum.isFalsy, JSNum.mul, JSNum.div, ha, hmul, hr0,
        mul_div_assoc, div_self hr0]
  · intro c b
    by_cases hb : b = 0
    · subst hb
      simp [convert, JSNum.isFalsy]
    · simp [convert, JSNum.isFalsy, hb]

/-- Witness for C2 at rate 23/25 and amount 100. -/
theorem C2_convert_roundtrip_and_identity_witness :
    (0 : Rat) < 23/25 ∧
    (convert ⟨.USD, 23/25⟩ (convert ⟨.EUR, 23/25⟩ (.num 100) .USD) .EUR = .num 100 ∧
     (∀ (c : Currency) (b : Rat), convert ⟨c, 23/25⟩ (.num b) c = .num b)) :=
  ⟨by norm_num, C2_convert_roundtrip_and_identity (23/25) 100 (by norm_num)⟩

/-- C1: for every fetched price-history array with more than one element,
after a change of ticker or period (PriceChart) or of portfolio, period or
refresh key (PortfolioPerformance) the freshly computed stats satisfy
`change = last - first` and, when the first price is non-zero,
`changePct = (last - first) / first * 100`; when the first price is zero
the stats are still recomputed (no division-by-zero guard) and the
percentage is a non-finite JS value. The result never depends on the
previous stats. -/
theorem C1_period_stats_recomputed
    (stPC : PriceChart.State) (ticker period : String)
    (hPC : ¬(stPC.ticker = ticker ∧ stPC.period = period))
    (stPP : PortfolioPerformance.State) (pid period2 : String) (rk : Nat)
    (hPP : ¬(stPP.portfolioId = pid ∧ stPP.period = period2 ∧ stPP.refreshKey = rk))
    (hpid : pid ≠ "")
    (response : List JSNum) (f la : Rat)
    (hlen : 1 < response.length)
    (hf : response.headD .nan = .num f)
    (hl : response.getLastD .nan = .num la) :
    ((PriceChart.update stPC ticker period response).stats.change = .num (la - f) ∧
     (PortfolioPerformance.update stPP pid period2 rk response).stats.change = .num (la - f)) ∧
    (f ≠ 0 →
      (PriceChart.update stPC ticker period response).stats.changePct =
        .num ((la - f) / f * 100) ∧
      (PortfolioPerformance.update stPP pid period2 rk response).stats.changePct =
        .num ((la - f) / f * 100)) ∧
    (f = 0 →
      (PriceChart.update stPC ticker period response).stats.changePct.isFinite = false ∧
      (PortfolioPerformance.update stPP pid period2 rk response).stats.changePct.isFinite = false) :=
  by
  have hval : ∀ prev : Stats,
      PriceChart.fetchHistoryStats response prev =
        { change := .num (la - f),
          changePct := ((JSNum.num (la - f)).div (.num f)).mul (.num 100) } := by
    intro prev
    unfold PriceChart.fetchHistoryStats
    rw [if_pos hlen, hf, hl]
    rfl
  have hupdPC :
      (PriceChart.update stPC ticker period response).stats =
        PriceChart.fetchHistoryStats response stPC.stats := by
    simp [PriceChart.update, hPC]
  have hupdPP :
      (PortfolioPerformance.update stPP pid period2 rk response).stats =
        PriceChart.fetchHistoryStats response stPP.stats := by
    simp [PortfolioPerformance.update, hPP, hpid]
  refine ⟨⟨?_, ?_⟩, ?_, ?_⟩
  · rw [hupdPC, hval]
  · rw [hupdPP, hval]
  · intro hfz
    have hmul : ((JSNum.num (la - f)).div (.num f)).mul (.num 100) = .num ((la - f) / f * 100) := by
      simp [JSNum.div, JSNum.mul, hfz]
    constructor
    · rw [hupdPC, hval]
      simpa using hmul
    · rw [hupdPP, hval]
      simpa using hmul
  · intro hfz
    subst hfz
    have hnf : (((JSNum.num (la - 0)).div (.num 0)).mul (.num 100)).isFinite = false := by
      rcases lt_trichotomy (0 : Rat) (la - 0) with h | h | h
      · rw [sub_zero] at h
        norm_num [JSNum.div, JSNum.mul, JSNum.isFinite, h]
      · rw [sub_zero] at h
        norm_num [JSNum.div, JSNum.mul, JSNum.isFinite, ← h]
      · rw [sub_zero] at h
        norm_num [JSNum.div, JSNum.mul, JSNum.isFinite, h, not_lt_of_gt h]
    constructor
    · rw [hupdPC, hval]
      simpa using hnf
    · rw [hupdPP, hval]
      simpa using hnf

/-- Witness for C1: switching from (AAPL, 1mo) to (MSFT, 1y) and fetching
the two-point series [10, 15] yields change 5 and percentage change 50. -/
theorem C1_period_stats_recomputed_witness :
    (¬((("AAPL" : String) = "MSFT") ∧ (("1mo" : String) = "1y"))) ∧
    (¬((("p0" : String) = "p1") ∧ (("1mo" : String) = "1y") ∧ ((0 : Nat) = 1))) ∧
    (("p1" : String) ≠ "") ∧
    1 < ([JSNum.num 10, JSNum.num 15] : List JSNum).length ∧
    ([JSNum.num 10, JSNum.num 15] : List JSNum).headD .nan = .num 10 ∧
    ([JSNum.num 10, JSNum.num 15] : List JSNum).getLastD .nan = .num 15 ∧
    (((PriceChart.update ⟨"AAPL", "1mo", [], ⟨.num 0, .num 0⟩⟩ "MSFT" "1y"
        [JSNum.num 10, JSNum.num 15]).stats.change = .num (15 - 10) ∧
      (PortfolioPerformance.update ⟨"p0", "1mo", 0, [], ⟨.num 0, .num 0⟩⟩ "p1" "1y" 1
        [JSNum.num 10, JSNum.num 15]).stats.change = .num (15 - 10)) ∧
     ((10 : Rat) ≠ 0 →
       (PriceChart.update ⟨"AAPL", "1mo", [], ⟨.num 0, .num 0⟩⟩ "MSFT" "1y"
         [JSNum.num 10, JSNum.num 15]).stats.changePct = .num ((15 - 10) / 10 * 100) ∧
       (PortfolioPerformance.update ⟨"p0", "1mo", 0, [], ⟨.num 0, .num 0⟩⟩ "p1" "1y" 1
         [JSNum.num 10, JSNum.num 15]).stats.changePct = .num ((15 - 10) / 10 * 100)) ∧
     ((10 : Rat) = 0 →
       (PriceChart.update ⟨"AAPL", "1mo", [], ⟨.num 0, .num 0⟩⟩ "MSFT" "1y"
         [JSNum.num 10, JSNum.num 15]).stats.changePct.isFinite = false ∧
       (PortfolioPerformance.update ⟨"p0", "1mo", 0, [], ⟨.num 0, .num 0⟩⟩ "p1" "1y" 1
         [JSNum.num 10, JSNum.num 15]).stats.changePct.isFinite = false)) :=
  ⟨by decide, by decide, by decide, by decide, by decide, by decide,
   C1_period_stats_recomputed ⟨"AAPL", "1mo", [], ⟨.num 0, .num 0⟩⟩ "MSFT" "1y" (by decide)
     ⟨"p0", "1mo", 0, [], ⟨.num 0, .num 0⟩⟩ "p1" "1y" 1 (by decide) (by decide)
     [JSNum.num 10, JSNum.num 15] 10 15 (by decide) (by decide) (by decide)⟩

open StockTool.usePortfolios (ApiRequest)

/-- C5 counterexample: `createPortfolio` and `deletePortfolio` never issue
the full-list GET — `createPortfolio` appends the POST response to the
local state and `deletePortfolio` filters the local state, both optimistic
updates. The claim that every portfolio mutation re-fetches the list is
therefore false. -/
theorem C5_counterexample :
    ApiRequest.listReq ∉
      (usePortfolios.createPortfolio [] "Growth" ⟨"p1", "Growth", [], "t0"⟩).1 ∧
    (usePortfolios.createPortfolio [] "Growth" ⟨"p1", "Growth", [], "t0"⟩).2 =
      [⟨"p1", "Growth", [], "t0"⟩] ∧
    ApiRequest.listReq ∉
      (usePortfolios.deletePortfolio [⟨"p1", "Growth", [], "t0"⟩] "p1").1 ∧
    (usePortfolios.deletePortfolio [⟨"p1", "Growth", [], "t0"⟩] "p1").2 = [] := by
  refine ⟨?_, rfl, ?_, rfl⟩ <;> decide

/-- C5 amended: only the holding mutations re-fetch: `addHolding` and
`removeHolding` issue the full-list GET and replace the local list with
the re-fetched server list, while `createPortfolio` appends the POST
response locally and `deletePortfolio` filters the local list, neither
re-fetching. -/
theorem C5_only_holding_mutations_refetch
    (ps serverList : List usePortfolios.Portfolio)
    (pid name tick : String) (h : usePortfolios.Holding)
    (newP : usePortfolios.Portfolio) :
    (ApiRequest.listReq ∈ (usePortfolios.addHolding ps pid h serverList).1 ∧
     (usePortfolios.addHolding ps pid h serverList).2 = serverList) ∧
    (ApiRequest.listReq ∈ (usePortfolios.removeHolding ps pid tick serverList).1 ∧
     (usePortfolios.removeHolding ps pid tick serverList).2 = serverList) ∧
    usePortfolios.createPortfolio ps name newP = ([.createReq name], ps ++ [newP]) ∧
    usePortfolios.deletePortfolio ps pid =
      ([.deleteReq pid], ps.filter (fun p => p.id ≠ pid)) := by
  refine ⟨⟨?_, rfl⟩, ⟨?_, rfl⟩, rfl, rfl⟩ <;>
    simp [usePortfolios.addHolding, usePortfolios.removeHolding]

/-- C6 (code bug): a non-numeric share count is not rejected — with ticker
"AAPL", shares "abc" and a selected portfolio, both add-holding handlers
invoke the add callback, passing `parseFloat("abc") = NaN` as the share
count; only the blank-ticker (and blank-shares) half of the guard holds. -/
theorem C6_nonnumeric_shares_reach_callback :
    AddHoldingModal.handleAdd "AAPL" "abc" "" "p1" .USD (23/25) =
      some ⟨"p1", "AAPL", .nan, none⟩ ∧
    PortfolioView.handleAddHolding (some "p1") "AAPL" "abc" "" =
      some ⟨"p1", "AAPL", .nan, none⟩ ∧
    AddHoldingModal.handleAdd "" "10" "" "p1" .USD (23/25) = none ∧
    PortfolioView.handleAddHolding (some "p1") "" "10" "" = none ∧
    AddHoldingModal.handleAdd "AAPL" "" "" "p1" .USD (23/25) = none := by
  refine ⟨?_, ?_, ?_, ?_, ?_⟩ <;> decide

/-- C7 counterexample: the program writes three browser-storage keys, not
two — `activeTab`, `lastAnalysis` and `preferred_currency`. -/
theorem C7_counterexample :
    StockTool.writtenStorageKeys.length = 3 ∧
    StockTool.writtenStorageKeys.length ≠ 2 := by
  decide

/-- C7 amended: the locally persisted state consists of exactly three
distinct browser-storage keys (last active tab, last analysis JSON blob,
preferred currency), each unversioned and overwritten wholesale on change:
a `setItem` replaces the value under its key and leaves every other key
untouched; no other key is ever written. -/
theorem C7_three_keys_overwritten_wholesale
    (store : String → Option String) (key value k : String)
    (hkey : key ∈ StockTool.writtenStorageKeys) (hk : k ≠ key) :
    StockTool.writtenStorageKeys.length = 3 ∧
    StockTool.writtenStorageKeys.Nodup ∧
    StockTool.setItem store key value key = some value ∧
    StockTool.setItem store key value k = store k := by
  refine ⟨by decide, by decide, ?_, ?_⟩
  · simp [StockTool.setItem]
  · simp [StockTool.setItem, hk]

/-- Witness for C7 amended: writing `activeTab` leaves `lastAnalysis`
untouched. -/
theorem C7_three_keys_overwritten_wholesale_witness :
    ("activeTab" : String) ∈ StockTool.writtenStorageKeys ∧
    ("lastAnalysis" : String) ≠ "activeTab" ∧
    (StockTool.writtenStorageKeys.length = 3 ∧
     StockTool.writtenStorageKeys.Nodup ∧
     StockTool.setItem (fun _ => none) "activeTab" "portfolio" "activeTab" =
       some "portfolio" ∧
     StockTool.setItem (fun _ => none) "activeTab" "portfolio" "lastAnalysis" =
       (fun _ => none : String → Option String) "lastAnalysis") :=
  ⟨by decide, by decide,
   C7_three_keys_overwritten_wholesale (fun _ => none) "activeTab" "portfolio"
     "lastAnalysis" (by decide) (by decide)⟩

/-- C8 (code bug): on a non-ok analyze response whose body fails to parse
as JSON (e.g. an HTML error page behind a 502) exactly one JSON parse is
attempted, but the `Server Error: {status} {statusText}` fallback the
claim describes is never shown: `response.json()` consumed the body, so
the `response.text()` in the catch rejects and its TypeError escapes to
the outer catch, which displays the TypeError message instead. A body
that parses with a truthy `detail` still yields that detail. -/
theorem C8_fallback_unreachable :
    (AppContent.errorBodyReads ⟨502, "Bad Gateway", none⟩).count .jsonParse = 1 ∧
    AppContent.errorBodyReads ⟨502, "Bad Gateway", none⟩ =
      [.jsonParse, .textReadRejected] ∧
    AppContent.analyzeErrorOutcome ⟨502, "Bad Gateway", none⟩ = .bodyReadError ∧
    AppContent.analyzeErrorOutcome ⟨502, "Bad Gateway", none⟩ ≠
      .thrown ("Server Error: " ++ toString (502 : Nat) ++ " " ++ "Bad Gateway") ∧
    AppContent.analyzeErrorOutcome ⟨404, "Not Found", some (some "Ticker not found")⟩ =
      .thrown "Ticker not found" := by
  refine ⟨rfl, rfl, rfl, ?_, rfl⟩
  decide

/-- C9 counterexample: with two overlapping history fetches — generation 1
issued for the old period, generation 2 for the most recently selected
period — and the newer response resolving first, the stale generation-1
response is applied afterwards and ends up displayed: the finally
displayed series is not the one of the most recently selected period. -/
theorem C9_counterexample :
    (PriceChart.runResolutions ⟨"AAPL", "1y", [], ⟨.num 0, .num 0⟩⟩
        [⟨2, [.num 3, .num 4]⟩, ⟨1, [.num 1, .num 2]⟩]).data =
      [JSNum.num 1, JSNum.num 2] ∧
    ([JSNum.num 1, JSNum.num 2] : List JSNum) ≠ [JSNum.num 3, JSNum.num 4] ∧
    (1 : Nat) < 2 := by
  refine ⟨rfl, by decide, by decide⟩

/-- C9 amended: selecting a different period does re-issue exactly one
history fetch, but there is no staleness guard: the displayed series after
a burst of overlapping fetches is the payload of whichever response
resolved last, regardless of issue order. -/
theorem C9_one_fetch_last_resolution_wins
    (st : PriceChart.State) (ticker periodId interval : String)
    (hch : ¬(st.ticker = ticker ∧ st.period = periodId))
    (rs : List PriceChart.Resolution) (r : PriceChart.Resolution) :
    (PriceChart.updateRequests st ticker periodId interval).length = 1 ∧
    (PriceChart.runResolutions st (rs ++ [r])).data = r.payload := by
  constructor
  · simp [PriceChart.updateRequests, hch]
  · unfold PriceChart.runResolutions
    rw [List.foldl_append]
    rfl

/-- Witness for C9 amended: a period switch issues one fetch, and the
last-resolved response determines the display. -/
theorem C9_one_fetch_last_resolution_wins_witness :
    (¬((("AAPL" : String) = "AAPL") ∧ (("1mo" : String) = "1y"))) ∧
    ((PriceChart.updateRequests ⟨"AAPL", "1mo", [], ⟨.num 0, .num 0⟩⟩
        "AAPL" "1y" "1wk").length = 1 ∧
     (PriceChart.runResolutions ⟨"AAPL", "1mo", [], ⟨.num 0, .num 0⟩⟩
        ([⟨2, [.num 3, .num 4]⟩] ++ [⟨1, [.num 1, .num 2]⟩])).data =
       [JSNum.num 1, JSNum.num 2]) :=
  ⟨by decide,
   C9_one_fetch_last_resolution_wins ⟨"AAPL", "1mo", [], ⟨.num 0, .num 0⟩⟩
     "AAPL" "1y" "1wk" (by decide) [⟨2, [.num 3, .num 4]⟩] ⟨1, [.num 1, .num 2]⟩⟩

/-- C10: the rendered sentiment cards list the sectors in non-increasing
order of `strength` and is a permutation of the fetched heatmap; each
card's popover lists a permutation of the sector's hot stocks in
non-increasing order of `change_1w`, computed on a copy, while the sector
entry itself (including its `hot_stocks` field) appears unmodified. -/
theorem C10_heatmap_descending
    (heatmap : List MarketSentiment.HeatmapItem)
    (pr : MarketSentiment.HeatmapItem × List MarketSentiment.HotStock)
    (hpr : pr ∈ MarketSentiment.renderCards heatmap) :
    ((MarketSentiment.renderCards heatmap).map Prod.fst).Perm heatmap ∧
    List.Sorted (fun a b => b.strength ≤ a.strength)
      ((MarketSentiment.renderCards heatmap).map Prod.fst) ∧
    pr.1 ∈ heatmap ∧
    pr.2.Perm pr.1.hot_stocks ∧
    List.Sorted (fun a b => b.change_1w ≤ a.change_1w) pr.2 := by
  haveI iTot1 :
      IsTotal MarketSentiment.HeatmapItem (fun a b => b.strength ≤ a.strength) :=
    ⟨fun a b => le_total _ _⟩
  haveI iTr1 :
      IsTrans MarketSentiment.HeatmapItem (fun a b => b.strength ≤ a.strength) :=
    ⟨fun _ _ _ h1 h2 => le_trans h2 h1⟩
  haveI iTot2 :
      IsTotal MarketSentiment.HotStock (fun a b => b.change_1w ≤ a.change_1w) :=
    ⟨fun a b => le_total _ _⟩
  haveI iTr2 :
      IsTrans MarketSentiment.HotStock (fun a b => b.change_1w ≤ a.change_1w) :=
    ⟨fun _ _ _ h1 h2 => le_trans h2 h1⟩
  have hmap : (MarketSentiment.renderCards heatmap).map Prod.fst =
      MarketSentiment.sortSectors heatmap := by
    unfold MarketSentiment.renderCards
    rw [List.map_map]
    exact List.map_id _
  obtain ⟨item, hitem, heq⟩ :
      ∃ item ∈ MarketSentiment.sortSectors heatmap,
        (item, MarketSentiment.sortedStocks item) = pr := by
    simpa [MarketSentiment.renderCards] using hpr
  subst heq
  refine ⟨?_, ?_, ?_, ?_, ?_⟩
  · rw [hmap]
    exact List.perm_insertionSort _ _
  · rw [hmap]
    exact List.sorted_insertionSort _ _
  · exact (List.perm_insertionSort _ _).subset hitem
  · exact List.perm_insertionSort _ _
  · exact List.sorted_insertionSort _ _

/-- Witness for C10 on a two-sector heatmap: Energy (strength 90) renders
before Tech (strength 80), and Tech's hot stocks are listed AMD (+7)
before NVDA (+5) while the Tech entry keeps its original stock order. -/
theorem C10_heatmap_descending_witness :
    ((⟨"Tech", 1, "bull", 80, [⟨"NVDA", "NVIDIA", 100, 5⟩, ⟨"AMD", "AMD", 50, 7⟩]⟩,
       [⟨"AMD", "AMD", 50, 7⟩, ⟨"NVDA", "NVIDIA", 100, 5⟩]) ∈
      MarketSentiment.renderCards
        [⟨"Tech", 1, "bull", 80, [⟨"NVDA", "NVIDIA", 100, 5⟩, ⟨"AMD", "AMD", 50, 7⟩]⟩,
         ⟨"Energy", -1, "bear", 90, []⟩]) ∧
    (((MarketSentiment.renderCards
        [⟨"Tech", 1, "bull", 80, [⟨"NVDA", "NVIDIA", 100, 5⟩, ⟨"AMD", "AMD", 50, 7⟩]⟩,
         ⟨"Energy", -1, "bear", 90, []⟩]).map Prod.fst).Perm
        [⟨"Tech", 1, "bull", 80, [⟨"NVDA", "NVIDIA", 100, 5⟩, ⟨"AMD", "AMD", 50, 7⟩]⟩,
         ⟨"Energy", -1, "bear", 90, []⟩] ∧
     List.Sorted (fun a b => b.strength ≤ a.strength)
       ((MarketSentiment.renderCards
         [⟨"Tech", 1, "bull", 80, [⟨"NVDA", "NVIDIA", 100, 5⟩, ⟨"AMD", "AMD", 50, 7⟩]⟩,
          ⟨"Energy", -1, "bear", 90, []⟩]).map Prod.fst) ∧
     ((⟨"Tech", 1, "bull", 80, [⟨"NVDA", "NVIDIA", 100, 5⟩, ⟨"AMD", "AMD", 50, 7⟩]⟩,
        [⟨"AMD", "AMD", 50, 7⟩, ⟨"NVDA", "NVIDIA", 100, 5⟩]) :
        MarketSentiment.HeatmapItem × List MarketSentiment.HotStock).1 ∈
       [⟨"Tech", 1, "bull", 80, [⟨"NVDA", "NVIDIA", 100, 5⟩, ⟨"AMD", "AMD", 50, 7⟩]⟩,
        ⟨"Energy", -1, "bear", 90, []⟩] ∧
     ((⟨"Tech", 1, "bull", 80, [⟨"NVDA", "NVIDIA", 100, 5⟩, ⟨"AMD", "AMD", 50, 7⟩]⟩,
        [⟨"AMD", "AMD", 50, 7⟩, ⟨"NVDA", "NVIDIA", 100, 5⟩]) :
        MarketSentiment.HeatmapItem × List MarketSentiment.HotStock).2.Perm
       ((⟨"Tech", 1, "bull", 80, [⟨"NVDA", "NVIDIA", 100, 5⟩, ⟨"AMD", "AMD", 50, 7⟩]⟩,
         [⟨"AMD", "AMD", 50, 7⟩, ⟨"NVDA", "NVIDIA", 100, 5⟩]) :
         MarketSentiment.HeatmapItem × List MarketSentiment.HotStock).1.hot_stocks ∧
     List.Sorted (fun a b => b.change_1w ≤ a.change_1w)
       ((⟨"Tech", 1, "bull", 80, [⟨"NVDA", "NVIDIA", 100, 5⟩, ⟨"AMD", "AMD", 50, 7⟩]⟩,
         [⟨"AMD", "AMD", 50, 7⟩, ⟨"NVDA", "NVIDIA", 100, 5⟩]) :
         MarketSentiment.HeatmapItem × List MarketSentiment.HotStock).2) :=
  ⟨by decide,
   C10_heatmap_descending
     [⟨"Tech", 1, "bull", 80, [⟨"NVDA", "NVIDIA", 100, 5⟩, ⟨"AMD", "AMD", 50, 7⟩]⟩,
      ⟨"Energy", -1, "bear", 90, []⟩]
     (⟨"Tech", 1, "bull", 80, [⟨"NVDA", "NVIDIA", 100, 5⟩, ⟨"AMD", "AMD", 50, 7⟩]⟩,
      [⟨"AMD", "AMD", 50, 7⟩, ⟨"NVDA", "NVIDIA", 100, 5⟩])
     (by decide)⟩
